import Mathlib

/-
Shallow embedding of `src/app.py`, a FastAPI front-end that aggregates
responses from a pool of Invidious-protocol mirrors and a few dedicated
resolver services.

Modelling conventions:
* HTTP calls made through the `requests` library are abstracted as their
  observable outcome (`Completion`): either the call raised an exception
  (network error, timeout, parse error inside `r.json()` is modelled
  separately as a `none` body), or it produced a response with a status code
  and a body that either parses as JSON (`some j`) or does not (`none`).
* `request_invidious` consumes the list of attempt completions in arrival
  order, exactly as `concurrent.futures.as_completed` delivers them.
* Python `dict.get(key, default)` is `Json.get` (an `AttributeError` on a
  non-dict receiver is an error), `d[key]` is `Json.getItem` (a `KeyError`
  on a missing key is an error).
* Python `list.sort(key, reverse=True)` is a stable descending sort; it is
  modelled with `List.insertionSort` over the decorated (key, value) pairs,
  which produces the same output as any stable descending sort.
* Python `int(s)` and `s.split("x")` are modelled over `List Char` by
  structurally recursive functions agreeing with Python on the decimal
  integer strings the claims quantify over.
* Python argument binding for `requests.get` is modelled by `requests_get`:
  `requests.api.get` is `def get(url, params=None, **kwargs)` and accepts at
  most two positional parameters, so the calls in `api_video`,
  `api_streamurl` and `api_formats` — `requests.get(url, ua(), MAX_TIMEOUT)`
  resp. `requests.get(url, None, MAX_TIMEOUT)`, three positionals each —
  deterministically raise `TypeError` at binding, before any request is
  issued.  The keyword-argument call in `request_invidious`
  (`headers=ua(), timeout=MAX_TIMEOUT`) is well-formed and reaches the
  network, so only there is the network outcome a free input.
-/

namespace SenninViewer

/-- JSON values, as produced by `response.json()`. -/
inductive Json where
  | null
  | bool (b : Bool)
  | num (n : Int)
  | str (s : String)
  | arr (elems : List Json)
  | obj (fields : List (String × Json))

/-- Python `d.get(key, default)`: returns the stored value, or `default` when
the key is missing; raises (`.error`) when the receiver is not a dict. -/
def Json.get (j : Json) (key : String) (default : Json) : Except Unit Json :=
  match j with
  | .obj fields =>
    match fields.lookup key with
    | some v => .ok v
    | none => .ok default
  | _ => .error ()

/-- Python `d[key]`: raises `KeyError` when the key is missing and
`TypeError` when the receiver is not a dict; both are `.error`. -/
def Json.getItem (j : Json) (key : String) : Except Unit Json :=
  match j with
  | .obj fields =>
    match fields.lookup key with
    | some v => .ok v
    | none => .error ()
  | _ => .error ()

/-- Python truthiness of a JSON value (`if x["resolution"]`). -/
def pyTruthy : Json → Bool
  | .null => false
  | .bool b => b
  | .num n => n != 0
  | .str s => s != ""
  | .arr elems => !elems.isEmpty
  | .obj fields => !fields.isEmpty

/-- Observable outcome of one `requests.get` attempt:
`exn` when the call raised (connection error, DNS failure, timeout, ...);
`resp status body` when a response arrived, where `body = none` means the
body does not parse as JSON (`r.json()` raises) and `body = some j` means it
parses to `j`. -/
inductive Completion where
  | exn
  | resp (status : Nat) (body : Option Json)

/-- The validator implicit in the race loop of `request_invidious`:
an arrived response is used iff `r.status_code == 200` and `r.json()`
succeeds.  An exception never counts as accepted. -/
def accept (c : Completion) : Bool :=
  match c with
  | .exn => false
  | .resp status body => if status = 200 then body.isSome else false

/-- Maximum number of positional arguments accepted by `requests.get`,
whose signature is `def get(url, params=None, **kwargs)`. -/
def requestsGetMaxPositional : Nat := 2

/-- Python argument binding for a `requests.get(...)` call with
`nPositional` positional arguments: when more positionals are passed than
the signature accepts, Python raises `TypeError` at the call site
(`.error ()`), before any network request is issued; otherwise the call
proceeds and produces its network outcome. -/
def requests_get (nPositional : Nat) (networkOutcome : Completion) :
    Except Unit Completion :=
  if requestsGetMaxPositional < nPositional then .error ()
  else .ok networkOutcome

/-- Errors surfaced by `request_invidious`:
`emptyPool` models the `ValueError` raised by
`ThreadPoolExecutor(max_workers=0)` before any request is submitted, and
`allFailed` models `RuntimeError("All Invidious APIs failed")`. -/
inductive RaceError where
  | emptyPool
  | allFailed
deriving DecidableEq

/-- The `for f in concurrent.futures.as_completed(futures)` loop of
`request_invidious`, consuming completions in arrival order: an exception in
`f.result()` or in `r.json()` is absorbed by `except Exception: pass`, a
non-200 response falls through, and the first 200 response with a parseable
body is returned. -/
def raceLoop : List Completion → Option Json
  | [] => none
  | .exn :: rest => raceLoop rest
  | .resp status body :: rest =>
    if status = 200 then
      match body with
      | some j => some j
      | none => raceLoop rest
    else raceLoop rest

/-- `request_invidious`, over the list of attempt completions in arrival
order.  An empty pool makes `ThreadPoolExecutor(max_workers=len(apis))`
raise `ValueError` at once (no request is ever submitted); otherwise the
first accepted response wins and if none is accepted the function raises
`RuntimeError("All Invidious APIs failed")`. -/
def request_invidious (completions : List Completion) : Except RaceError Json :=
  if completions.isEmpty then .error .emptyPool
  else
    match raceLoop completions with
    | some j => .ok j
    | none => .error .allFailed

/-- Number of `ex.submit(...)` calls performed by `request_invidious` for a
given pool: on an empty pool the executor constructor raises before the list
comprehension runs, so zero requests are issued; otherwise one request per
endpoint is submitted. -/
def submitCount (apis : List String) : Nat :=
  if apis.isEmpty then 0 else apis.length

/-- `MAX_TIMEOUT = 10`, the per-attempt timeout passed to every
`requests.get` call. -/
def MAX_TIMEOUT : Nat := 10

/-- The static `INVIDIOUS_APIS` endpoint-pool registry. -/
def INVIDIOUS_APIS : List (String × List String) :=
  [ ("video",
     [ "https://invidious.exma.de/",
       "https://invidious.f5.si/",
       "https://siawaseok-wakame-server2.glitch.me/",
       "https://lekker.gay/",
       "https://id.420129.xyz/",
       "https://invid-api.poketube.fun/",
       "https://eu-proxy.poketube.fun/",
       "https://cal1.iv.ggtyler.dev/",
       "https://pol1.iv.ggtyler.dev/" ]),
    ("search",
     [ "https://pol1.iv.ggtyler.dev/",
       "https://youtube.mosesmang.com/",
       "https://iteroni.com/",
       "https://invidious.0011.lt/",
       "https://iv.melmac.space/",
       "https://rust.oskamp.nl/",
       "https://api-five-zeta-55.vercel.app/" ]),
    ("channel",
     [ "https://siawaseok-wakame-server2.glitch.me/",
       "https://id.420129.xyz/",
       "https://invidious.0011.lt/",
       "https://invidious.nietzospannend.nl/",
       "https://invidious.lunivers.trade/",
       "https://invidious.ducks.party/",
       "https://super8.absturztau.be/",
       "https://invidious.nikkosphere.com/",
       "https://yt.omada.cafe/",
       "https://iv.melmac.space/",
       "https://iv.duti.dev/" ]),
    ("playlist",
     [ "https://siawaseok-wakame-server2.glitch.me/",
       "https://invidious.0011.lt/",
       "https://invidious.nietzospannend.nl/",
       "https://youtube.mosesmang.com/",
       "https://iv.melmac.space/",
       "https://lekker.gay/" ]),
    ("comments",
     [ "https://siawaseok-wakame-server2.glitch.me/",
       "https://invidious.0011.lt/",
       "https://invidious.nietzospannend.nl/",
       "https://invidious.lunivers.trade/",
       "https://invidious.ducks.party/",
       "https://super8.absturztau.be/",
       "https://invidious.nikkosphere.com/",
       "https://yt.omada.cafe/",
       "https://iv.duti.dev/",
       "https://iv.melmac.space/" ]) ]

/-- One attempt of a timed race: how long the attempt takes from dispatch to
completion, and what it completes with.  All attempts start at time 0
because `max_workers = len(apis)` gives every attempt its own worker. -/
structure TimedAttempt where
  duration : Nat
  completion : Completion

/-- Time at which `request_invidious` returns to its caller.  The `with
ThreadPoolExecutor(...)` block calls `ex.shutdown(wait=True)` on exit
(also on `return`), so the function returns only once every attempt — the
winner and all the losers — has finished: the maximum of all durations. -/
def callerLatency (attempts : List TimedAttempt) : Nat :=
  (attempts.map TimedAttempt.duration).foldr max 0

/-- Arrival time of the race winner: the duration of the first accepted
completion in arrival order (the list is in arrival order, so durations are
nondecreasing along it). -/
def winnerTime (attempts : List TimedAttempt) : Option Nat :=
  (attempts.find? (fun a => accept a.completion)).map TimedAttempt.duration

/-- Errors surfaced by the façade handlers: a propagated race error, or an
uncaught Python exception (`AttributeError` / `KeyError` / `TypeError`)
raised while mapping an accepted payload. -/
inductive ApiError where
  | race (e : RaceError)
  | pyError
deriving DecidableEq

/-- The JSON object returned by `api_video`: exactly the keys `title`,
`author` and `description`. -/
structure VideoOut where
  title : Json
  author : Json
  description : Json

/-- The dict built inside the `try` block of `api_video` from the EDU
primary's body: `d.get("title")`, `d.get("author", {}).get("name")`,
`d.get("description", {}).get("formatted", "")`.  Any `AttributeError`
raised by the inner `get` on a non-dict value is caught by the surrounding
`except Exception: pass`. -/
def primaryVideoMap (d : Json) : Except Unit VideoOut := do
  let title ← d.get "title" .null
  let authorObj ← d.get "author" (.obj [])
  let author ← authorObj.get "name" .null
  let descObj ← d.get "description" (.obj [])
  let description ← descObj.get "formatted" (.str "")
  pure ⟨title, author, description⟩

/-- The dict built by `api_video` from a mirror payload:
`d.get("title")`, `d.get("author")`, `d.get("description")`. -/
def mirrorVideoMap (d : Json) : Except Unit VideoOut := do
  let title ← d.get "title" .null
  let author ← d.get "author" .null
  let description ← d.get "description" .null
  pure ⟨title, author, description⟩

/-- Mapping of an accepted mirror payload in `api_video`: an
`AttributeError` from `d.get` on a non-dict payload propagates uncaught. -/
def mapMirror (d : Json) : Except ApiError VideoOut :=
  match mirrorVideoMap d with
  | .ok out => .ok out
  | .error _ => .error .pyError

/-- The fallback path of `api_video`: race the video mirror pool, then map
the accepted payload; a race error propagates. -/
def videoFallback (mirrors : List Completion) : Except ApiError VideoOut :=
  match request_invidious mirrors with
  | .error e => .error (.race e)
  | .ok d => mapMirror d

/-- `api_video`: the `try` block calls
`requests.get(f"{EDU_VIDEO_API_BASE_URL}{video_id}", ua(), MAX_TIMEOUT)` —
three positional arguments, so the binding raises `TypeError` before any
request and `except Exception: pass` swallows it: the EDU primary is never
contacted and the handler always falls through to the mirror race.  The
response-processing branch of the `try` block is embedded below it but is
unreachable.  The second component records whether the mirror pool race
was dispatched. -/
def api_video (primaryNet : Completion) (mirrors : List Completion) :
    Except ApiError VideoOut × Bool :=
  match requests_get 3 primaryNet with
  | .error _ => (videoFallback mirrors, true)
  | .ok r =>
    match r with
    | .exn => (videoFallback mirrors, true)
    | .resp status body =>
      if status = 200 then
        match body with
        | none => (videoFallback mirrors, true)
        | some d =>
          match primaryVideoMap d with
          | .ok out => (.ok out, false)
          | .error _ => (videoFallback mirrors, true)
      else (videoFallback mirrors, true)

/-- `api_search`: the raw race result is returned to the caller unchanged. -/
def api_search (completions : List Completion) : Except RaceError Json :=
  request_invidious completions

/-- One entry of the `comments` array returned by `api_comments`. -/
structure CommentOut where
  author : Json
  content : Json

/-- The per-comment dict of `api_comments`:
`{"author": c["author"], "content": c["contentHtml"]}` — bracket access, so
a missing key raises `KeyError`. -/
def commentMap (c : Json) : Except Unit CommentOut :=
  match c.getItem "author" with
  | .error e => .error e
  | .ok author =>
    match c.getItem "contentHtml" with
    | .error e => .error e
    | .ok content => .ok ⟨author, content⟩

/-- A Python list comprehension `[f(c) for c in cs]` where `f` may raise:
the first raising element aborts the whole comprehension. -/
def mapPy (f : α → Except Unit β) : List α → Except Unit (List β)
  | [] => .ok []
  | c :: cs =>
    match f c with
    | .error e => .error e
    | .ok b =>
      match mapPy f cs with
      | .error e => .error e
      | .ok bs => .ok (b :: bs)

/-- The response body built by `api_comments` from an accepted payload:
`[{"author": c["author"], "content": c["contentHtml"]} for c in
d.get("comments", [])]`.  Any Python exception while mapping (non-dict
payload, non-array comments value, comment without `author` or
`contentHtml`) propagates uncaught. -/
def commentsOfPayload (d : Json) : Except ApiError (List CommentOut) :=
  match Json.get d "comments" (.arr []) with
  | .error _ => .error .pyError
  | .ok (.arr cs) =>
    match mapPy commentMap cs with
    | .ok outs => .ok outs
    | .error _ => .error .pyError
  | .ok _ => .error .pyError

/-- `api_comments`: race the comments pool, then map the accepted payload.
A race error propagates. -/
def api_comments (completions : List Completion) :
    Except ApiError (List CommentOut) :=
  match request_invidious completions with
  | .error e => .error (.race e)
  | .ok d => commentsOfPayload d

/-- One entry of the `formats` array returned by `api_formats`: exactly the
keys `resolution`, `fps` and `url`, each taken with `f.get(...)`. -/
structure FormatOut where
  resolution : Json
  fps : Json
  url : Json

/-- The dict built for each upstream m3u8 format:
`{"resolution": f.get("resolution"), "fps": f.get("fps"),
"url": f.get("url")}`; raises `AttributeError` when `f` is not a dict. -/
def toFormatOut (f : Json) : Except Unit FormatOut :=
  match f with
  | .obj fields =>
    .ok ⟨(fields.lookup "resolution").getD .null,
         (fields.lookup "fps").getD .null,
         (fields.lookup "url").getD .null⟩
  | _ => .error ()

/-- Decimal digit value of a character, `none` for a non-digit. -/
def digitVal (c : Char) : Option Nat :=
  if c = '0' then some 0 else if c = '1' then some 1
  else if c = '2' then some 2 else if c = '3' then some 3
  else if c = '4' then some 4 else if c = '5' then some 5
  else if c = '6' then some 6 else if c = '7' then some 7
  else if c = '8' then some 8 else if c = '9' then some 9
  else none

/-- Accumulating decimal parser over the remaining characters. -/
def parseDigitsGo (acc : Nat) : List Char → Option Nat
  | [] => some acc
  | c :: cs =>
    match digitVal c with
    | some d => parseDigitsGo (acc * 10 + d) cs
    | none => none

/-- Nonempty all-digit string to `Nat`; `none` otherwise. -/
def parseDigits : List Char → Option Nat
  | [] => none
  | cs => parseDigitsGo 0 cs

/-- Python `int(s)` on the decimal integer strings the claims quantify over:
an optional leading minus sign followed by at least one digit; `none`
(a raised `ValueError`) otherwise. -/
def parseDecimal (cs : List Char) : Option Int :=
  match cs with
  | '-' :: rest => (parseDigits rest).map (fun n => -(n : Int))
  | _ => (parseDigits cs).map (fun n => (n : Int))

/-- Python `s.split(sep)` for a one-character separator, over the character
list of `s`. -/
def splitOnChar (sep : Char) : List Char → List (List Char)
  | [] => [[]]
  | c :: rest =>
    if c = sep then [] :: splitOnChar sep rest
    else
      match splitOnChar sep rest with
      | [] => [[c]]
      | grp :: grps => (c :: grp) :: grps

/-- The sort key of `api_formats`:
`int(x["resolution"].split("x")[-1]) if x["resolution"] else 0`.
A falsy resolution (null, empty string, 0, ...) gives key 0; a truthy
non-string raises `AttributeError`; a truthy string whose last
`"x"`-separated component is not a decimal integer raises `ValueError`. -/
def formatKey (x : FormatOut) : Except Unit Int :=
  if pyTruthy x.resolution then
    match x.resolution with
    | .str s =>
      match parseDecimal ((splitOnChar 'x' s.data).getLastD []) with
      | some n => .ok n
      | none => .error ()
    | _ => .error ()
  else .ok 0

/-- Decorate each format with its sort key, in list order (Python's sort
evaluates `key` on every element and propagates the first exception). -/
def keyFormats (formats : List FormatOut) : Except Unit (List (Int × FormatOut)) :=
  mapPy (fun f =>
    match formatKey f with
    | .ok k => .ok (k, f)
    | .error e => .error e) formats

/-- Stable descending sort on the decorated list, modelling
`formats.sort(key=..., reverse=True)`: an element goes before another iff
its key is `≥`, so equal keys keep their original relative order. -/
def sortDesc (keyed : List (Int × FormatOut)) : List (Int × FormatOut) :=
  List.insertionSort (fun a b => b.1 ≤ a.1) keyed

/-- The format list built by `api_formats` from a parsed body: one entry
per element of `data.get("m3u8_formats", [])`, sorted by descending
integer height.  Any raised Python exception is an `.error`. -/
def formatsOfPayload (data : Json) : Except Unit (List FormatOut) :=
  match Json.get data "m3u8_formats" (.arr []) with
  | .ok (.arr elems) =>
    match mapPy toFormatOut elems with
    | .ok formats =>
      match keyFormats formats with
      | .ok keyed => .ok ((sortDesc keyed).map Prod.snd)
      | .error _ => .error ()
    | .error _ => .error ()
  | _ => .error ()

/-- What `api_formats` would do with a received response:
`raise_for_status()`, parse the body, then build and sort the entries.
This code is unreachable in the program (see `api_formats`). -/
def formatsResponse (r : Completion) : Except Unit (List FormatOut) :=
  match r with
  | .exn => .error ()
  | .resp status body =>
    if 400 ≤ status ∧ status < 600 then .error ()
    else
      match body with
      | none => .error ()
      | some data => formatsOfPayload data

/-- `api_formats`: calls
`requests.get(f"{YTDLP_M3U8_API}{video_id}", None, MAX_TIMEOUT)` — three
positional arguments, so the binding raises `TypeError` before any request,
and nothing catches it: the handler always fails and the fetch/parse/sort
pipeline below the call is dead code. -/
def api_formats (networkOutcome : Completion) : Except Unit (List FormatOut) :=
  match requests_get 3 networkOutcome with
  | .error _ => .error ()
  | .ok r => formatsResponse r

/-- Result of `api_streamurl`: either `{"url": u}` with status 200, or the
404 JSON body `{"error": "not found"}`. -/
inductive StreamResult where
  | url (u : Json)
  | notFound

/-- Python `f.get("itag") == "18"`: only the JSON string `"18"` compares
equal to the Python string `"18"`. -/
def isStr18 (v : Json) : Bool :=
  match v with
  | .str s => s == "18"
  | _ => false

/-- The `for f in data.get("formats", [])` loop of `api_streamurl`: return
`{"url": f["url"]}` for the first entry whose `itag` equals `"18"`, fall
off the loop into the 404 response otherwise; `f.get` on a non-dict entry
and `f["url"]` on an entry without `url` raise. -/
def findItag18 : List Json → Except Unit StreamResult
  | [] => .ok .notFound
  | f :: rest =>
    match Json.get f "itag" .null with
    | .error e => .error e
    | .ok v =>
      if isStr18 v then
        match Json.getItem f "url" with
        | .ok u => .ok (.url u)
        | .error e => .error e
      else findItag18 rest

/-- What `api_streamurl` would do with a received resolver response:
`raise_for_status()`, parse the body, and scan its `formats` for itag
`"18"`.  This code is unreachable in the program (see `api_streamurl`). -/
def streamOf (r : Completion) : Except Unit StreamResult :=
  match r with
  | .exn => .error ()
  | .resp status body =>
    if 400 ≤ status ∧ status < 600 then .error ()
    else
      match body with
      | none => .error ()
      | some data =>
        match Json.get data "formats" (.arr []) with
        | .ok (.arr elems) => findItag18 elems
        | _ => .error ()

/-- `api_streamurl`: picks one resolver base —
`SHORT_STREAM_API_BASE_URL if short else STREAM_YTDL_API_BASE_URL` (there
is no second candidate) — and calls
`requests.get(f"{base}{video_id}", ua(), MAX_TIMEOUT)` — three positional
arguments, so the binding raises `TypeError` before any request, and
nothing catches it: the handler always fails, and neither the itag-18 URL
nor the 404 path of `streamOf` can execute. -/
def api_streamurl (short : Bool) (shortNet ytdlNet : Completion) :
    Except Unit StreamResult :=
  match requests_get 3 (if short then shortNet else ytdlNet) with
  | .error _ => .error ()
  | .ok r => streamOf r

instance : IsTotal (Int × FormatOut) (fun a b => b.1 ≤ a.1) :=
  ⟨fun a b => le_total b.1 a.1⟩

instance : IsTrans (Int × FormatOut) (fun a b => b.1 ≤ a.1) :=
  ⟨fun _ _ _ h1 h2 => le_trans h2 h1⟩

/-! Helper lemmas about the race loop. -/

lemma raceLoop_cons_of_not_accept (c : Completion) (rest : List Completion)
    (h : accept c = false) : raceLoop (c :: rest) = raceLoop rest := by
  cases c with
  | exn => rfl
  | resp status body =>
    by_cases h200 : status = 200
    · subst h200
      simp only [accept, if_pos rfl] at h
      cases body with
      | none => simp [raceLoop]
      | some j => simp at h
    · simp [raceLoop, h200]

lemma raceLoop_append_of_all_fail (pre l : List Completion)
    (h : ∀ c ∈ pre, accept c = false) :
    raceLoop (pre ++ l) = raceLoop l := by
  induction pre with
  | nil => rfl
  | cons a as ih =>
    rw [List.cons_append,
      raceLoop_cons_of_not_accept a _ (h a (List.mem_cons_self a as)),
      ih (fun c hc => h c (List.mem_cons_of_mem a hc))]

lemma raceLoop_eq_none_of_all_fail (l : List Completion)
    (h : ∀ c ∈ l, accept c = false) : raceLoop l = none := by
  have h2 := raceLoop_append_of_all_fail l [] h
  rwa [List.append_nil] at h2

lemma request_invidious_of_ne_nil (l : List Completion) (h : l ≠ []) :
    request_invidious l =
      match raceLoop l with
      | some j => .ok j
      | none => .error .allFailed := by
  cases l with
  | nil => exact absurd rfl h
  | cons a as => rfl

/-- Claim C1: for a non-empty pool, if at least one endpoint returns an
HTTP 200 whose body parses as JSON, `request_invidious` returns normally
with the parsed body of the first validator-accepted completion in arrival
order, and completions arriving after the winner are discarded: the result
does not depend on them. -/
theorem race_first_accepted (pre suf : List Completion) (j : Json)
    (hpre : ∀ c ∈ pre, accept c = false) :
    request_invidious (pre ++ .resp 200 (some j) :: suf) = .ok j ∧
    ∀ suf2, request_invidious (pre ++ .resp 200 (some j) :: suf) =
            request_invidious (pre ++ .resp 200 (some j) :: suf2) := by
  have key : ∀ s : List Completion,
      request_invidious (pre ++ .resp 200 (some j) :: s) = .ok j := by
    intro s
    have hne : pre ++ .resp 200 (some j) :: s ≠ [] := by simp
    rw [request_invidious_of_ne_nil _ hne,
      raceLoop_append_of_all_fail pre _ hpre]
    rfl
  exact ⟨key suf, fun suf2 => (key suf).trans (key suf2).symm⟩

/-- Witness for C1: two failing arrivals, then an accepted one, then a late
accepted one that is ignored. -/
theorem race_first_accepted_witness :
    request_invidious
      [.exn, .resp 404 none, .resp 200 (some (.str "payload")), .resp 200 (some .null)]
      = .ok (.str "payload") :=
  (race_first_accepted [.exn, .resp 404 none] [.resp 200 (some .null)]
    (.str "payload") (by decide)).1

/-- Claim C2: when every endpoint errors or returns a rejected response,
the race fails with the single `allFailed` error (no individual attempt
failure is surfaced), and any single rejected attempt merely makes the loop
continue with the remaining completions. -/
theorem race_all_failed (l : List Completion) (hne : l ≠ [])
    (hall : ∀ c ∈ l, accept c = false) :
    request_invidious l = .error .allFailed ∧
    ∀ c rest, accept c = false → raceLoop (c :: rest) = raceLoop rest := by
  refine ⟨?_, fun c rest hc => raceLoop_cons_of_not_accept c rest hc⟩
  rw [request_invidious_of_ne_nil l hne, raceLoop_eq_none_of_all_fail l hall]

/-- Witness for C2: a pool where one attempt raises, one returns 404 and one
returns 200 with an unparseable body. -/
theorem race_all_failed_witness :
    request_invidious [.exn, .resp 404 none, .resp 200 none] = .error .allFailed ∧
    ∀ c rest, accept c = false → raceLoop (c :: rest) = raceLoop rest :=
  race_all_failed [.exn, .resp 404 none, .resp 200 none]
    (List.cons_ne_nil _ _) (by decide)

/-- Claim C3: the validator accepts a completion iff it is an HTTP 200
response whose body parses as JSON; a 200 with an unparseable body is
rejected and counts as that endpoint failing (the loop continues), never as
the race succeeding. -/
theorem validator_accept_iff (c : Completion) :
    (accept c = true ↔ ∃ j, c = .resp 200 (some j)) ∧
    accept (.resp 200 none) = false ∧
    ∀ rest, raceLoop (.resp 200 none :: rest) = raceLoop rest := by
  refine ⟨?_, rfl, fun rest => rfl⟩
  cases c with
  | exn => simp [accept]
  | resp status body =>
    by_cases h200 : status = 200
    · subst h200
      cases body with
      | none => simp [accept]
      | some j => simp [accept]
    · simp [accept, h200]

/-- Claim C6 counterexample: with an accepted completion arriving at time 1
and a losing attempt finishing at time 10, `request_invidious` picks the
winner arriving at time 1, but the `with` block's implicit
`shutdown(wait=True)` makes the caller wait until time 10 — the caller does
not receive the winning payload without waiting for the slower still-pending
attempt, contradicting the claimed latency bound. -/
theorem race_latency_cex :
    winnerTime [⟨1, .resp 200 (some .null)⟩, ⟨10, .exn⟩] = some 1 ∧
    request_invidious
      ([⟨1, .resp 200 (some .null)⟩, ⟨10, .exn⟩].map TimedAttempt.completion)
      = .ok .null ∧
    callerLatency [⟨1, .resp 200 (some .null)⟩, ⟨10, .exn⟩] = 10 ∧
    callerLatency [⟨1, .resp 200 (some .null)⟩, ⟨10, .exn⟩] ≠ 1 :=
  ⟨rfl, rfl, rfl, by decide⟩

lemma callerLatency_le (attempts : List TimedAttempt) (T : Nat)
    (h : ∀ a ∈ attempts, a.duration ≤ T) : callerLatency attempts ≤ T := by
  induction attempts with
  | nil => exact Nat.zero_le T
  | cons a as ih =>
    show max a.duration (callerLatency as) ≤ T
    exact max_le (h a (List.mem_cons_self a as))
      (ih fun b hb => h b (List.mem_cons_of_mem a hb))

lemma le_callerLatency (attempts : List TimedAttempt) :
    ∀ a ∈ attempts, a.duration ≤ callerLatency attempts := by
  intro a ha
  induction attempts with
  | nil => cases ha
  | cons b bs ih =>
    show a.duration ≤ max b.duration (callerLatency bs)
    rcases List.mem_cons.mp ha with h | h
    · rw [h]
      exact le_max_left _ _
    · exact le_trans (ih h) (le_max_right _ _)

/-- Claim C6 amended: there is no global deadline; all attempts share the
per-attempt timeout, run concurrently, and the caller's latency is the
maximum attempt duration — bounded by any common per-attempt bound `T`
(so not the sum over endpoints), but at least the duration of every
attempt, losers included: the caller waits for all of them. -/
theorem race_latency_amended (attempts : List TimedAttempt) (T : Nat)
    (h : ∀ a ∈ attempts, a.duration ≤ T) :
    callerLatency attempts ≤ T ∧
    ∀ a ∈ attempts, a.duration ≤ callerLatency attempts :=
  ⟨callerLatency_le attempts T h, le_callerLatency attempts⟩

/-- Witness for the amended C6 at the concrete per-attempt timeout. -/
theorem race_latency_amended_witness :
    callerLatency [⟨2, .exn⟩, ⟨7, .resp 503 none⟩] ≤ MAX_TIMEOUT ∧
    ∀ a ∈ [TimedAttempt.mk 2 .exn, TimedAttempt.mk 7 (.resp 503 none)],
      a.duration ≤ callerLatency [⟨2, .exn⟩, ⟨7, .resp 503 none⟩] :=
  race_latency_amended [⟨2, .exn⟩, ⟨7, .resp 503 none⟩] MAX_TIMEOUT (by decide)

/-! Helper lemmas about `api_video`. -/

lemma videoFallback_ok (mirrors : List Completion) (d : Json) (out : VideoOut)
    (hr : request_invidious mirrors = .ok d) (hm : mirrorVideoMap d = .ok out) :
    videoFallback mirrors = .ok out := by
  unfold videoFallback
  rw [hr]
  show mapMirror d = .ok out
  unfold mapMirror
  rw [hm]

lemma api_video_eq_fallback (primaryNet : Completion) (mirrors : List Completion) :
    api_video primaryNet mirrors = (videoFallback mirrors, true) := rfl

/-- Claim C4 (code bug): the primary call
`requests.get(f"{EDU_VIDEO_API_BASE_URL}{video_id}", ua(), MAX_TIMEOUT)`
binds three positional arguments against `get(url, params=None, **kwargs)`
and raises `TypeError` before any request, whatever the network would have
answered; the `except` swallows it, so `api_video` always dispatches the
mirror race and the EDU primary can never yield the 200 the claim
describes. -/
theorem api_video_always_falls_through (primaryNet : Completion)
    (mirrors : List Completion) :
    requests_get 3 primaryNet = .error () ∧
    api_video primaryNet mirrors = (videoFallback mirrors, true) :=
  ⟨rfl, rfl⟩

/-- Claim C8 counterexample: a mirror-answered `api_video` request returns
exactly the mapped three-field payload — no tag marks it as
mirror-sourced, and the result is the same whatever the primary call is
modelled to do (the second pair component is the model's bookkeeping that
the mirror race ran, not part of the returned payload); moreover
`api_search` hands the raw upstream payload to the caller verbatim,
leaking the upstream schema. -/
theorem api_video_no_tag_cex :
    api_video .exn [.resp 200 (some (.obj [("title", .str "T"),
        ("author", .str "A"), ("description", .str "D")]))]
      = (.ok ⟨.str "T", .str "A", .str "D"⟩, true) ∧
    api_video (.resp 200 (some .null)) [.resp 200 (some (.obj [("title", .str "T"),
        ("author", .str "A"), ("description", .str "D")]))]
      = (.ok ⟨.str "T", .str "A", .str "D"⟩, true) ∧
    api_search [.resp 200 (some (.obj [("type", .str "video"),
        ("videoId", .str "abc"), ("title", .str "T")]))]
      = .ok (.obj [("type", .str "video"), ("videoId", .str "abc"),
        ("title", .str "T")]) :=
  ⟨rfl, rfl, rfl⟩

/-- Claim C8 amended: no façade response carries a provider-family tag.
Every successful `api_video` answer is mirror-sourced (the primary always
fails), yet the response is only the mapped
`{title, author, description}` payload, identical under any modelling of
the primary call; and `api_search` returns the raw race payload
unchanged. -/
theorem api_video_untagged (primaryNet : Completion) (mirrors : List Completion)
    (d : Json) (out : VideoOut)
    (hr : request_invidious mirrors = .ok d) (hm : mirrorVideoMap d = .ok out) :
    api_video primaryNet mirrors = (.ok out, true) ∧
    (∀ primaryNet2, api_video primaryNet2 mirrors = api_video primaryNet mirrors) ∧
    (∀ completions, api_search completions = request_invidious completions) := by
  have h2 := videoFallback_ok mirrors d out hr hm
  refine ⟨?_, fun primaryNet2 => rfl, fun completions => rfl⟩
  rw [api_video_eq_fallback primaryNet mirrors, h2]

/-- Witness for the amended C8. -/
theorem api_video_untagged_witness :
    api_video .exn [.resp 200 (some (.obj [("title", .str "T"),
        ("author", .str "A"), ("description", .str "D")]))]
      = (.ok ⟨.str "T", .str "A", .str "D"⟩, true) ∧
    (∀ primaryNet2, api_video primaryNet2
        [.resp 200 (some (.obj [("title", .str "T"),
          ("author", .str "A"), ("description", .str "D")]))]
      = api_video .exn [.resp 200 (some (.obj [("title", .str "T"),
          ("author", .str "A"), ("description", .str "D")]))]) ∧
    (∀ completions, api_search completions = request_invidious completions) :=
  api_video_untagged .exn
    [.resp 200 (some (.obj [("title", .str "T"),
      ("author", .str "A"), ("description", .str "D")]))]
    (.obj [("title", .str "T"), ("author", .str "A"), ("description", .str "D")])
    ⟨.str "T", .str "A", .str "D"⟩
    rfl rfl

/-- Claim C7: an empty endpoint pool makes `request_invidious` fail at once
with the configuration error (`ValueError` from the executor constructor),
an error distinct from `allFailed`, and zero requests are submitted. -/
theorem empty_pool_config_error :
    request_invidious [] = .error .emptyPool ∧
    RaceError.emptyPool ≠ RaceError.allFailed ∧
    submitCount [] = 0 :=
  ⟨rfl, by decide, rfl⟩

/-- Claim C5 counterexample: even on the claim's own scenario — the
selected ytdl resolver would answer 200 without the itag-18 format while
the other resolver has it — `api_streamurl` raises the uncaught
positional-argument `TypeError` (`.error ()`): it never returns the next
candidate's URL (nor even a 404), because the single `requests.get` call
fails at argument binding before any resolver is contacted, so no ordered
candidate chain is ever run. -/
theorem streamurl_no_chain_cex :
    api_streamurl false
      (.resp 200 (some (.obj [("formats",
        .arr [.obj [("itag", .str "18"), ("url", .str "u18")]])])))
      (.resp 200 (some (.obj [("formats",
        .arr [.obj [("itag", .str "22"), ("url", .str "u22")]])])))
      = .error () ∧
    (Except.error () : Except Unit StreamResult) ≠ .ok (.url (.str "u18")) ∧
    (Except.error () : Except Unit StreamResult) ≠ .ok .notFound := by
  refine ⟨rfl, fun h => ?_, fun h => ?_⟩
  · exact Except.noConfusion h
  · exact Except.noConfusion h

/-- Claim C5 amended: `api_streamurl` never returns any stream URL: it
consults no resolver chain but makes a single `requests.get` call with
three positional arguments, which raises `TypeError` before any request —
for every video id, for both values of `short`, and whatever either
resolver would have answered, the handler fails with that uncaught
exception, and neither the itag-18 URL nor the 404 path is reachable. -/
theorem api_streamurl_always_fails (short : Bool) (shortNet ytdlNet : Completion) :
    requests_get 3 (if short then shortNet else ytdlNet) = .error () ∧
    api_streamurl short shortNet ytdlNet = .error () :=
  ⟨rfl, rfl⟩

/-! Helper lemmas about `mapPy`. -/

lemma mapPy_ok_cons (f : α → Except Unit β) (c : α) (cs : List α) (out : List β)
    (h : mapPy f (c :: cs) = .ok out) :
    ∃ b bs, f c = .ok b ∧ mapPy f cs = .ok bs ∧ out = b :: bs := by
  unfold mapPy at h
  cases hc : f c with
  | error e => rw [hc] at h; simp at h
  | ok b =>
    rw [hc] at h
    cases hcs : mapPy f cs with
    | error e => rw [hcs] at h; simp at h
    | ok bs =>
      rw [hcs] at h
      simp only at h
      exact ⟨b, bs, rfl, rfl, (Except.ok.inj h).symm⟩

lemma mapPy_error_of_mem (f : α → Except Unit β) (l : List α) (c : α)
    (hc : c ∈ l) (hf : f c = .error ()) : mapPy f l = .error () := by
  induction l with
  | nil => cases hc
  | cons a as ih =>
    unfold mapPy
    rcases List.mem_cons.mp hc with h | h
    · subst h
      rw [hf]
    · cases ha : f a with
      | error e => rfl
      | ok b => rw [ih h]

lemma api_comments_of_ok (completions : List Completion) (d : Json)
    (hd : request_invidious completions = .ok d) :
    api_comments completions = commentsOfPayload d := by
  unfold api_comments
  rw [hd]

/-- Claim C10: `api_comments` maps the upstream comments in order to
`{author, content}` objects, the content taken from `contentHtml`; and if
any single comment lacks `author` or `contentHtml`, the whole operation
raises (`pyError`) instead of returning the remaining comments, even
though the race already succeeded. -/
theorem api_comments_strict (completions : List Completion) (d : Json) (cs : List Json)
    (hd : request_invidious completions = .ok d)
    (hc : Json.get d "comments" (.arr []) = .ok (.arr cs)) :
    (∀ outs, mapPy commentMap cs = .ok outs → api_comments completions = .ok outs) ∧
    ((∃ c ∈ cs, commentMap c = .error ()) →
       api_comments completions = .error .pyError) ∧
    (∀ c author content, Json.getItem c "author" = .ok author →
       Json.getItem c "contentHtml" = .ok content →
       commentMap c = .ok ⟨author, content⟩) := by
  refine ⟨?_, ?_, ?_⟩
  · intro outs houts
    rw [api_comments_of_ok completions d hd]
    simp [commentsOfPayload, hc, houts]
  · rintro ⟨c, hcmem, herr⟩
    rw [api_comments_of_ok completions d hd]
    simp [commentsOfPayload, hc, mapPy_error_of_mem commentMap cs c hcmem herr]
  · intro c author content h1 h2
    simp [commentMap, h1, h2]

/-- Witness for C10: one well-formed comment. -/
theorem api_comments_strict_witness :
    (∀ outs, mapPy commentMap
        [Json.obj [("author", .str "al"), ("contentHtml", .str "hi")]] = .ok outs →
      api_comments [.resp 200 (some (.obj [("comments",
        .arr [.obj [("author", .str "al"), ("contentHtml", .str "hi")]])]))]
        = .ok outs) ∧
    ((∃ c ∈ [Json.obj [("author", .str "al"), ("contentHtml", .str "hi")]],
        commentMap c = .error ()) →
      api_comments [.resp 200 (some (.obj [("comments",
        .arr [.obj [("author", .str "al"), ("contentHtml", .str "hi")]])]))]
        = .error .pyError) ∧
    (∀ c author content, Json.getItem c "author" = .ok author →
       Json.getItem c "contentHtml" = .ok content →
       commentMap c = .ok ⟨author, content⟩) :=
  api_comments_strict
    [.resp 200 (some (.obj [("comments",
      .arr [.obj [("author", .str "al"), ("contentHtml", .str "hi")]])]))]
    (.obj [("comments", .arr [.obj [("author", .str "al"), ("contentHtml", .str "hi")]])])
    [.obj [("author", .str "al"), ("contentHtml", .str "hi")]]
    rfl rfl

/-! Helper lemmas about `keyFormats` and the sort. -/

lemma keyFormats_spec (formats : List FormatOut) (keyed : List (Int × FormatOut))
    (h : keyFormats formats = .ok keyed) :
    keyed.map Prod.snd = formats ∧ ∀ p ∈ keyed, formatKey p.2 = .ok p.1 := by
  induction formats generalizing keyed with
  | nil =>
    unfold keyFormats mapPy at h
    have h2 := Except.ok.inj h
    subst h2
    exact ⟨rfl, fun p hp => absurd hp (List.not_mem_nil p)⟩
  | cons f fs ih =>
    obtain ⟨b, bs, hb, hbs, hout⟩ := mapPy_ok_cons _ f fs keyed h
    cases hk : formatKey f with
    | error e => rw [hk] at hb; simp at hb
    | ok k =>
      rw [hk] at hb
      simp only at hb
      have hb2 := Except.ok.inj hb
      obtain ⟨hsnd, hmem⟩ := ih bs hbs
      subst hout
      rw [← hb2]
      constructor
      · simp [hsnd]
      · intro p hp
        rcases List.mem_cons.mp hp with h3 | h3
        · subst h3; exact hk
        · exact hmem p h3

/-- Supporting lemma (not reachable in the program, see
`api_formats_always_fails`): the dead response-processing code of
`api_formats` would, when every format's key computes, return a
permutation of the per-format entries with the integer heights (null or
empty resolution keyed 0) in descending order. -/
theorem formatsResponse_sorted_desc (data : Json) (elems : List Json)
    (formats : List FormatOut) (keyed : List (Int × FormatOut)) (out : List FormatOut)
    (hdata : Json.get data "m3u8_formats" (.arr []) = .ok (.arr elems))
    (hfmt : mapPy toFormatOut elems = .ok formats)
    (hkey : keyFormats formats = .ok keyed)
    (hout : formatsResponse (.resp 200 (some data)) = .ok out) :
    out.Perm formats ∧
    out.Pairwise (fun a b => ∀ ka kb, formatKey a = .ok ka →
      formatKey b = .ok kb → kb ≤ ka) ∧
    (∀ fps url, formatKey ⟨.null, fps, url⟩ = .ok 0 ∧
      formatKey ⟨.str "", fps, url⟩ = .ok 0) := by
  have hcalc : formatsResponse (.resp 200 (some data))
      = .ok ((sortDesc keyed).map Prod.snd) := by
    have h1 : formatsResponse (.resp 200 (some data)) = formatsOfPayload data := rfl
    rw [h1]
    simp [formatsOfPayload, hdata, hfmt, hkey]
  rw [hout] at hcalc
  have hout2 : out = (sortDesc keyed).map Prod.snd := Except.ok.inj hcalc
  subst hout2
  obtain ⟨hsnd, hall⟩ := keyFormats_spec formats keyed hkey
  refine ⟨?_, ?_, fun fps url => ⟨rfl, rfl⟩⟩
  · have hperm : (sortDesc keyed).Perm keyed := List.perm_insertionSort _ keyed
    have h2 := hperm.map Prod.snd
    rwa [hsnd] at h2
  · have hsorted : List.Pairwise (fun (a b : Int × FormatOut) => b.1 ≤ a.1)
        (sortDesc keyed) := List.sorted_insertionSort _ keyed
    have hmem : ∀ p ∈ sortDesc keyed, formatKey p.2 = .ok p.1 := fun p hp =>
      hall p ((List.perm_insertionSort _ keyed).mem_iff.mp hp)
    rw [List.pairwise_map]
    refine List.Pairwise.imp_of_mem ?_ hsorted
    intro a b ha hb hr ka kb hka hkb
    rw [hmem a ha] at hka
    rw [hmem b hb] at hkb
    rw [← Except.ok.inj hka, ← Except.ok.inj hkb]
    exact hr

/-- Concrete instance of `formatsResponse_sorted_desc`: three formats with
heights 360, null (key 0) and 1080, sorted 1080, 360, 0 by the dead
processing code. -/
theorem formatsResponse_sorted_desc_witness :
    ([⟨.str "1920x1080", .num 60, .str "u3"⟩, ⟨.str "640x360", .num 30, .str "u1"⟩,
      ⟨.null, .null, .str "u2"⟩] : List FormatOut).Perm
      [⟨.str "640x360", .num 30, .str "u1"⟩, ⟨.null, .null, .str "u2"⟩,
       ⟨.str "1920x1080", .num 60, .str "u3"⟩] ∧
    ([⟨.str "1920x1080", .num 60, .str "u3"⟩, ⟨.str "640x360", .num 30, .str "u1"⟩,
      ⟨.null, .null, .str "u2"⟩] : List FormatOut).Pairwise
      (fun a b => ∀ ka kb, formatKey a = .ok ka →
        formatKey b = .ok kb → kb ≤ ka) ∧
    (∀ fps url, formatKey ⟨.null, fps, url⟩ = .ok 0 ∧
      formatKey ⟨.str "", fps, url⟩ = .ok 0) :=
  formatsResponse_sorted_desc
    (.obj [("m3u8_formats", .arr
      [ .obj [("resolution", .str "640x360"), ("fps", .num 30), ("url", .str "u1")],
        .obj [("resolution", .null), ("url", .str "u2")],
        .obj [("resolution", .str "1920x1080"), ("fps", .num 60), ("url", .str "u3")] ])])
    [ .obj [("resolution", .str "640x360"), ("fps", .num 30), ("url", .str "u1")],
      .obj [("resolution", .null), ("url", .str "u2")],
      .obj [("resolution", .str "1920x1080"), ("fps", .num 60), ("url", .str "u3")] ]
    [ ⟨.str "640x360", .num 30, .str "u1"⟩, ⟨.null, .null, .str "u2"⟩,
      ⟨.str "1920x1080", .num 60, .str "u3"⟩ ]
    [ (360, ⟨.str "640x360", .num 30, .str "u1"⟩), (0, ⟨.null, .null, .str "u2"⟩),
      (1080, ⟨.str "1920x1080", .num 60, .str "u3"⟩) ]
    [ ⟨.str "1920x1080", .num 60, .str "u3"⟩, ⟨.str "640x360", .num 30, .str "u1"⟩,
      ⟨.null, .null, .str "u2"⟩ ]
    rfl rfl rfl rfl

/-- Claim C9 (code bug): `api_formats` calls
`requests.get(f"{YTDLP_M3U8_API}{video_id}", None, MAX_TIMEOUT)` with
three positional arguments against `get(url, params=None, **kwargs)`,
which raises `TypeError` at argument binding — before any request, for
every video id and whatever the upstream would have answered — and nothing
catches it: the handler always fails and never returns any format list,
so the claimed sorted output (implemented by the dead code, see
`formatsResponse_sorted_desc`) is never produced. -/
theorem api_formats_always_fails (networkOutcome : Completion) :
    requests_get 3 networkOutcome = .error () ∧
    api_formats networkOutcome = .error () :=
  ⟨rfl, rfl⟩

end SenninViewer
